import Mathlib

/-!
# Verification of the Sarvam batch speech-to-text client (`src/sarvam_batch.py`)

Shallow embedding of the batch-job pipeline of `sarvam_batch.py`:

* network calls (job creation, file registration/upload, job start, status
  polling, result-download, artifact fetch) are modelled as oracles supplied
  by a `GroupEnv` environment: each oracle value is the observable outcome of
  the corresponding HTTP interaction, exactly as the Python code consumes it
  (a `{"success": bool, ...}` dict becomes `Except String _`, a status JSON
  payload becomes a `StatusPayload`, an artifact GET becomes a
  `FetchOutcome`);
* the pure logic (status-field extraction, terminal-state matching, the
  polling loop's control flow, per-file result assembly, diarized-transcript
  formatting, chunking and aggregation) is translated line by line;
* the wall-clock `Timestamp` column (`datetime.now()`) is omitted from the
  `Row` model - it is real time, outside a shallow embedding, and no claim
  mentions it;
* `WaitOut`/`SubmitOut`/`GroupOut` carry instrumentation counters (`polls`,
  `downloads`, `uploads`, `starts`, `fetches`) recording how many times each
  oracle is invoked along the executed control path; the Python code performs
  exactly one network call per counted invocation.

JSON numbers (`start_time_seconds`) are modelled as exact rationals; the
Python fixed-point format `f"{x:.1f}"` is modelled by `fmt1` (round half up
on the exact value).
-/

namespace SarvamBatch

/-- One element of `diarized_transcript.entries` in a result artifact: a JSON
object whose keys `speaker_id`, `transcript`, `start_time_seconds` may each be
absent (`none`). -/
structure DiarEntry where
  speaker_id : Option String
  transcript : Option String
  start_time_seconds : Option ℚ
  deriving Repr, DecidableEq

/-- The value found under the key `diarized_transcript` of a parsed artifact:
either not a JSON object (`nonDict`, so `isinstance(..., dict)` fails), or an
object whose `entries` key may be absent. -/
inductive DiarObj where
  | nonDict
  | obj (entries : Option (List DiarEntry))
  deriving Repr, DecidableEq

/-- A parsed result artifact (`json.loads` output): either not a JSON object,
or an object with the three keys `process_batch` reads, each possibly
absent. -/
inductive JsonData where
  | nonDict
  | obj (transcript : Option String) (language_code : Option String)
      (diarized_transcript : Option DiarObj)
  deriving Repr, DecidableEq

/-- A value of the `download_urls` map: the Python code accepts either a bare
URL string or a dict whose `file_url` key may be absent
(`url_info.get("file_url") if isinstance(url_info, dict) else url_info`). -/
inductive UrlInfo where
  | str (s : String)
  | dict (file_url : Option String)
  deriving Repr, DecidableEq

/-- The parsed body of a successful `download-files` response, as consumed by
`process_batch`: its `download_urls` key, a map from output-file identifier
(e.g. `"0.json"`) to a `UrlInfo`. An absent key is the empty map. -/
structure DLResults where
  download_urls : List (String × UrlInfo)
  deriving Repr, DecidableEq

/-- What `json.loads` does to the text of a downloaded artifact: raises
(`err`, caught by the surrounding `except`) or yields parsed data. -/
inductive DecodeResult where
  | err (msg : String)
  | ok (data : JsonData)
  deriving Repr, DecidableEq

/-- An HTTP response to an artifact GET: status code plus what decoding its
text as JSON would yield. -/
structure HttpResp where
  code : Nat
  body : DecodeResult
  deriving Repr, DecidableEq

/-- Outcome of `session.get(json_url)` for one artifact: a raised exception
(`exc`, e.g. a network error) or a response. -/
inductive FetchOutcome where
  | exc (msg : String)
  | resp (r : HttpResp)
  deriving Repr, DecidableEq

/-- A status payload as returned by `check_status`: the four string keys
`wait_for_completion` and `process_batch` read from it, each possibly
absent. -/
structure StatusPayload where
  status : Option String
  job_state : Option String
  state : Option String
  error : Option String
  deriving Repr, DecidableEq

/-- The dict returned by `wait_for_completion`, projected to the keys its
caller `process_batch` reads: `status`, `error`, `results`. -/
structure WaitResult where
  status : Option String
  error : Option String
  results : Option DLResults
  deriving Repr, DecidableEq

/-- Return value of the modelled `wait_for_completion`, with instrumentation:
`polls` counts `check_status` calls, `downloads` counts `download_results`
calls made along the executed path. -/
structure WaitOut where
  result : WaitResult
  polls : Nat
  downloads : Nat
  deriving Repr, DecidableEq

/-- One output row (a `TranscriptResult`). The Python dict keys
`"File Name"`, `"File Path"`, `"Detected Language"`, `"Transcript"`,
`"Diarized Transcript"`, `"Error"` in order; the wall-clock `"Timestamp"`
key is omitted from the model. -/
structure Row where
  file_name : String
  file_path : String
  detected_language : String
  transcript : String
  diarized_transcript : String
  error : String
  deriving Repr, DecidableEq

/-- Environment of one group's job lifecycle: the observable outcomes of each
network interaction. `initiate`/`upload`/`start` are the `{"success", ...}`
dicts of `initiate_job`/`upload_files`/`start_job` (`Except.error e` models
`{"success": False, "error": e}`, `Except.ok` the success case, carrying the
`job_id` for `initiate`); `statusAt n` is the payload of the `n`-th
`check_status` call; `download` is the `download_results` outcome; `fetch u`
is the outcome of GETting the artifact URL `u`. -/
structure GroupEnv where
  initiate : Except String String
  upload : Except String Unit
  start : Except String Unit
  statusAt : Nat → StatusPayload
  download : Except String DLResults
  fetch : String → FetchOutcome

/-- Return value of the modelled `process_batch`: the result rows plus
instrumentation counters for each kind of network call made. -/
structure GroupOut where
  rows : List Row
  uploads : Nat
  starts : Nat
  polls : Nat
  downloads : Nat
  fetches : Nat
  deriving Repr, DecidableEq

/-- `os.path.basename`: the part of the path after the last `/` (the longest
suffix free of separators). -/
def basename (p : String) : String :=
  String.mk ((p.data.reverse.takeWhile (fun c => c ≠ '/')).reverse)

/-- Model of the Python fixed-point format `f"{x:.1f}"` on an exact rational:
round `x * 10` half up to an integer and print it with one decimal digit. -/
def fmt1 (q : ℚ) : String :=
  let n : ℤ := ⌊q * 10 + 1 / 2⌋
  let s : String := toString (n.natAbs / 10) ++ "." ++ toString (n.natAbs % 10)
  if n < 0 then "-" ++ s else s

/-- The `speaker_map` dict of `format_diarized_transcript`. -/
def speaker_map : List (String × String) :=
  [("0", "Customer"), ("1", "Agent"), ("2", "Speaker 3"), ("3", "Speaker 4"),
   ("4", "Speaker 5"), ("5", "Speaker 6"), ("6", "Speaker 7"), ("7", "Speaker 8")]

/-- The line `format_diarized_transcript` appends for one entry:
`f"[{start_time:.1f}s] {speaker_label}: {transcript}"` with the dict-lookup
defaults of the source (`speaker_id` defaults to `"UNKNOWN"`, `transcript`
to `""`, `start_time_seconds` to `0`; an id missing from `speaker_map` is
labelled `f"Speaker {speaker_id}"`). -/
def format_entry (entry : DiarEntry) : String :=
  let speaker_id := entry.speaker_id.getD "UNKNOWN"
  let speaker_label := (speaker_map.lookup speaker_id).getD ("Speaker " ++ speaker_id)
  let transcript := entry.transcript.getD ""
  let start_time := entry.start_time_seconds.getD 0
  "[" ++ fmt1 start_time ++ "s] " ++ speaker_label ++ ": " ++ transcript

/-- `SarvamBatchSTT.format_diarized_transcript`: build one line per entry, in
input order, and `"\n".join` them. -/
def format_diarized_transcript (diarized_data : List DiarEntry) : String :=
  String.intercalate "\n" (diarized_data.map format_entry)

/-- Python string truthiness on an optional dict value: `None` and `""` are
falsy; a non-empty string is its own truthy value. Used to model the
`a or b or c or "unknown"` chain and `if json_url:`. -/
def truthy (s : Option String) : Option String :=
  match s with
  | none => none
  | some s => if s = "" then none else some s

/-- The status-field extraction of `wait_for_completion`:
`status_result.get("status") or .get("job_state") or .get("state") or
"unknown"` (Python `or` skips `None` and empty strings). -/
def extract_status (sr : StatusPayload) : String :=
  match truthy sr.status with
  | some s => s
  | none =>
    match truthy sr.job_state with
    | some s => s
    | none =>
      match truthy sr.state with
      | some s => s
      | none => "unknown"

/-- The success-synonym vocabulary of `wait_for_completion`. -/
def success_statuses : List String := ["completed", "complete", "success", "succeeded"]

/-- The failure-synonym vocabulary of `wait_for_completion`. -/
def failure_statuses : List String := ["failed", "error", "failure"]

/-- Python `str.lower()` (character-wise lowercasing; status strings are
ASCII). Same function as `String.toLower`, written over the character list. -/
def pyLower (s : String) : String :=
  String.mk (s.data.map Char.toLower)

/-- `status.lower() in ["completed", "complete", "success", "succeeded"]`. -/
def isSuccessStatus (status : String) : Bool :=
  success_statuses.contains (pyLower status)

/-- `status.lower() in ["failed", "error", "failure"]`. -/
def isFailureStatus (status : String) : Bool :=
  failure_statuses.contains (pyLower status)

/-- Body of the `while elapsed < max_wait` polling loop of
`wait_for_completion`, with the remaining iteration count as fuel (see
`pollBudget`) and `polls` the number of iterations already executed, which is
also the index of the next `check_status` call. Each iteration polls once;
on a success synonym it calls `download_results` once and returns the
completed/error dict, on a failure synonym it returns the raw status payload,
otherwise it sleeps and continues. Exhausted fuel is the loop exiting on
`elapsed < max_wait` becoming false, after which the timeout dict is
returned. -/
def waitLoop (statusAt : Nat → StatusPayload) (download : Except String DLResults) :
    Nat → Nat → WaitOut
  | 0, polls => ⟨⟨some "timeout", some "Job timed out", none⟩, polls, 0⟩
  | fuel + 1, polls =>
    let status_result := statusAt polls
    let status := extract_status status_result
    if isSuccessStatus status then
      match download with
      | .ok res => ⟨⟨some "completed", none, some res⟩, polls + 1, 1⟩
      | .error e => ⟨⟨some "error", some ("Download failed: " ++ e), none⟩, polls + 1, 1⟩
    else if isFailureStatus status then
      ⟨⟨status_result.status, status_result.error, none⟩, polls + 1, 0⟩
    else
      waitLoop statusAt download fuel (polls + 1)

/-- Number of iterations of `while elapsed < max_wait: ...; elapsed +=
poll_interval` starting from `elapsed = 0`: the elapsed values visited are
`0, p, 2p, ...`, so for `p > 0` the body runs `⌈max_wait / p⌉ = (max_wait +
p - 1) / p` times. (For `p = 0` the Python loop never terminates unless a
terminal status is observed; the model's budget is 0 there and the `p = 0`
case is outside the claims, all of which assume a positive interval.) -/
def pollBudget (poll_interval max_wait : Nat) : Nat :=
  (max_wait + poll_interval - 1) / poll_interval

/-- `SarvamBatchSTT.wait_for_completion`: poll `check_status` at a fixed
interval until a terminal status or the wait budget is exhausted. -/
def wait_for_completion (statusAt : Nat → StatusPayload)
    (download : Except String DLResults) (poll_interval max_wait : Nat) : WaitOut :=
  waitLoop statusAt download (pollBudget poll_interval max_wait) 0

/-- Return value of the modelled `submit_batch`: the outcome (error string,
or `job_id` on success) plus instrumentation counting `upload_files` and
`start_job` calls. -/
structure SubmitOut where
  result : Except String String
  uploads : Nat
  starts : Nat
  deriving Repr

/-- `SarvamBatchSTT.submit_batch`: initiate, then upload, then start; the
first stage that reports failure short-circuits the rest and its error is
propagated. -/
def submit_batch (env : GroupEnv) : SubmitOut :=
  match env.initiate with
  | .error e => ⟨.error e, 0, 0⟩
  | .ok job_id =>
    match env.upload with
    | .error e => ⟨.error e, 1, 0⟩
    | .ok _ =>
      match env.start with
      | .error e => ⟨.error e, 1, 1⟩
      | .ok _ => ⟨.ok job_id, 1, 1⟩

/-- The error-row dict literal repeated throughout `process_batch`: language
`"error"`, empty transcripts, and the given message in the `Error` column. -/
def error_row (f msg : String) : Row :=
  ⟨basename f, f, "error", "", "", msg⟩

/-- The download-URL lookup of `process_batch` for the file at index `idx`:
`json_file_id = f"{idx}.json"`; `url_info = download_urls.get(json_file_id,
{})`; `json_url = url_info.get("file_url") if isinstance(url_info, dict)
else url_info`. -/
def json_url_at (download_urls : List (String × UrlInfo)) (idx : Nat) : Option String :=
  let json_file_id := toString idx ++ ".json"
  let url_info := (download_urls.lookup json_file_id).getD (.dict none)
  match url_info with
  | .dict file_url => file_url
  | .str s => some s

/-- The row `process_batch` builds for one file from the outcome of GETting
its artifact URL: an exception or a JSON-decode exception yields a
`"Download error: ..."` row, a non-200 response a
`"Failed to download result: ..."` row, and a decoded artifact a `"Success"`
row with the transcript, language and (when entries are present) formatted
diarized text extracted with the source's `isinstance`/default guards. -/
def artifact_row (outcome : FetchOutcome) (audio_file : String) : Row :=
  match outcome with
  | .exc e => error_row audio_file ("Download error: " ++ e)
  | .resp r =>
    if r.code = 200 then
      match r.body with
      | .err e => error_row audio_file ("Download error: " ++ e)
      | .ok transcript_data =>
        let transcript : String :=
          match transcript_data with
          | .obj t _ _ => t.getD ""
          | .nonDict => ""
        let language : String :=
          match transcript_data with
          | .obj _ l _ => l.getD "unknown"
          | .nonDict => "unknown"
        let diarized_obj : DiarObj :=
          match transcript_data with
          | .obj _ _ d => d.getD (.obj none)
          | .nonDict => .obj none
        let diarized_data : List DiarEntry :=
          match diarized_obj with
          | .obj entries => entries.getD []
          | .nonDict => []
        let diarized_text :=
          if diarized_data.isEmpty then "" else format_diarized_transcript diarized_data
        ⟨basename audio_file, audio_file, language, transcript, diarized_text, "Success"⟩
    else
      error_row audio_file ("Failed to download result: " ++ toString r.code)

/-- The per-file body of the result loop of `process_batch`: look up the
positional download URL; if it is truthy, fetch and build the row from the
outcome, otherwise record `"No download URL found"`. -/
def file_result (fetch : String → FetchOutcome)
    (download_urls : List (String × UrlInfo)) (idx : Nat) (audio_file : String) : Row :=
  match truthy (json_url_at download_urls idx) with
  | some json_url => artifact_row (fetch json_url) audio_file
  | none => error_row audio_file "No download URL found"

/-- Instrumentation: whether the per-file body of `process_batch` performs an
artifact GET for index `idx` (1 exactly when the positional URL is truthy). -/
def file_fetch_count (download_urls : List (String × UrlInfo)) (idx : Nat) : Nat :=
  match truthy (json_url_at download_urls idx) with
  | some _ => 1
  | none => 0

/-- `process_batch`: submit the group; on submission failure emit one error
row per file with the propagated reason; otherwise wait for completion (with
the source's default `poll_interval=10`, `max_wait=3600`); on `"completed"`
build one row per file by positional artifact lookup, else emit one error
row per file carrying `completion_result.get("error", f"Job {status}")`. -/
def process_batch (env : GroupEnv) (batch_files : List String) : GroupOut :=
  let sub := submit_batch env
  match sub.result with
  | .error e =>
    ⟨batch_files.map (fun f => error_row f e), sub.uploads, sub.starts, 0, 0, 0⟩
  | .ok _ =>
    let w := wait_for_completion env.statusAt env.download 10 3600
    if w.result.status = some "completed" then
      let results_data := w.result.results.getD ⟨[]⟩
      let download_urls := results_data.download_urls
      ⟨batch_files.enum.map (fun p => file_result env.fetch download_urls p.1 p.2),
        sub.uploads, sub.starts, w.polls, w.downloads,
        (batch_files.enum.map (fun p => file_fetch_count download_urls p.1)).sum⟩
    else
      let status_str : String :=
        match w.result.status with
        | some s => s
        | none => "None"
      let error_msg := (w.result.error).getD ("Job " ++ status_str)
      ⟨batch_files.map (fun f => error_row f error_msg),
        sub.uploads, sub.starts, w.polls, w.downloads, 0⟩

/-- The batch split of `transcribe_folder_batch`:
`[audio_files[i:i + batch_size] for i in range(0, len(audio_files),
batch_size)]` - `range(0, L, n)` has `⌈L / n⌉` elements `0, n, 2n, ...` for
`n > 0`, and `l[i:i+n]` is `(l.drop i).take n`. (Python raises on step 0;
the model returns `[]` there, outside every claim.) -/
def chunks (audio_files : List String) (batch_size : Nat) : List (List String) :=
  (List.range' 0 ((audio_files.length + batch_size - 1) / batch_size) batch_size).map
    (fun i => (audio_files.drop i).take batch_size)

/-- `transcribe_folder_batch`, from the discovered file list onward (folder
scanning and the Excel sink are external collaborators per the spec): split
into batches, run one `process_batch` per batch (`asyncio.gather` keeps task
order), and flatten the per-batch row lists in batch order. `env g` is the
environment of the `g`-th group. -/
def transcribe_folder_batch (env : Nat → GroupEnv) (audio_files : List String)
    (batch_size : Nat) : List Row :=
  let batches := chunks audio_files batch_size
  let batch_results := batches.enum.map (fun p => (process_batch (env p.1) p.2).rows)
  batch_results.flatten

/-! ## Spec-side definitions

Definitions written from the words of the specification, used as comparison
points for refinement claims. -/

/-- Spec wording for speaker-label resolution: ids `"0"`..`"7"` map to the
fixed roster (customer, agent, speaker-3 ... speaker-8); any other id maps to
`"Speaker <id>"`. -/
def spec_speaker_label (id : String) : String :=
  match id with
  | "0" => "Customer"
  | "1" => "Agent"
  | "2" => "Speaker 3"
  | "3" => "Speaker 4"
  | "4" => "Speaker 5"
  | "5" => "Speaker 6"
  | "6" => "Speaker 7"
  | "7" => "Speaker 8"
  | other => "Speaker " ++ other

/-- Spec wording for one formatted line:
`"[<start_time_seconds, 1 decimal>s] <speaker_label>: <transcript_text>"`. -/
def spec_line (e : DiarEntry) : String :=
  "[" ++ fmt1 (e.start_time_seconds.getD 0) ++ "s] "
    ++ spec_speaker_label (e.speaker_id.getD "UNKNOWN") ++ ": " ++ e.transcript.getD ""

/-- Spec wording for the job state used in terminal matching: the first
non-empty value among the fields `status`, `job_state`, `state` in that
priority order, and `"unknown"` when none is present. -/
def spec_status_first_nonempty (sr : StatusPayload) : String :=
  ((([sr.status, sr.job_state, sr.state].filterMap id).filter
    (fun s => decide (s ≠ ""))).headD "unknown")

/-! ## Helper lemmas -/

/-- The dict lookup with `"Speaker <id>"` default in
`format_diarized_transcript` computes the spec's roster function. -/
lemma speaker_lookup_eq_spec (id : String) :
    (speaker_map.lookup id).getD ("Speaker " ++ id) = spec_speaker_label id := by
  unfold spec_speaker_label
  split
  · rfl
  · rfl
  · rfl
  · rfl
  · rfl
  · rfl
  · rfl
  · rfl
  · rename_i h0 h1 h2 h3 h4 h5 h6 h7
    have b0 : (id == "0") = false := by simpa using h0
    have b1 : (id == "1") = false := by simpa using h1
    have b2 : (id == "2") = false := by simpa using h2
    have b3 : (id == "3") = false := by simpa using h3
    have b4 : (id == "4") = false := by simpa using h4
    have b5 : (id == "5") = false := by simpa using h5
    have b6 : (id == "6") = false := by simpa using h6
    have b7 : (id == "7") = false := by simpa using h7
    simp [speaker_map, List.lookup, b0, b1, b2, b3, b4, b5, b6, b7]

/-- Each formatted line agrees with the spec's line description. -/
lemma format_entry_eq_spec_line (e : DiarEntry) : format_entry e = spec_line e := by
  show "[" ++ fmt1 (e.start_time_seconds.getD 0) ++ "s] "
      ++ (speaker_map.lookup (e.speaker_id.getD "UNKNOWN")).getD
          ("Speaker " ++ e.speaker_id.getD "UNKNOWN")
      ++ ": " ++ e.transcript.getD "" = spec_line e
  rw [speaker_lookup_eq_spec]
  rfl

/-- The status extraction computes the spec's first-non-empty lookup. -/
lemma extract_status_eq_spec (sr : StatusPayload) :
    extract_status sr = spec_status_first_nonempty sr := by
  rcases sr with ⟨s1, s2, s3, e⟩
  rcases s1 with _ | v1 <;> rcases s2 with _ | v2 <;> rcases s3 with _ | v3 <;>
    simp [extract_status, truthy, spec_status_first_nonempty] <;>
    split_ifs <;> simp_all

/-! ## Claim theorems -/

/-- C9: `format_diarized_transcript` is a pure deterministic function
returning the newline-join, in input order, of the spec's per-segment lines,
with speaker ids `"0"`..`"7"` mapped to the fixed roster and any other id to
`"Speaker <id>"` (id `"9"` yields `"Speaker 9"`); applying it twice to the
same sequence yields identical output. -/
theorem claim_C9 :
    (∀ diarized_data : List DiarEntry,
      format_diarized_transcript diarized_data =
        String.intercalate "\n" (diarized_data.map spec_line)) ∧
    (∀ diarized_data : List DiarEntry,
      format_diarized_transcript diarized_data = format_diarized_transcript diarized_data) ∧
    (["0", "1", "2", "3", "4", "5", "6", "7"].map spec_speaker_label =
      ["Customer", "Agent", "Speaker 3", "Speaker 4", "Speaker 5", "Speaker 6",
        "Speaker 7", "Speaker 8"]) ∧
    spec_speaker_label "9" = "Speaker 9" ∧
    format_diarized_transcript [⟨some "9", some "hi", some 2⟩] = "[2.0s] Speaker 9: hi" := by
  refine ⟨?_, fun _ => rfl, by decide, by decide, ?_⟩
  · intro diarized_data
    unfold format_diarized_transcript
    rw [show format_entry = spec_line from funext format_entry_eq_spec_line]
  · have h : fmt1 2 = "2.0" := by
      norm_num [fmt1]
      decide
    simp [format_diarized_transcript, format_entry, speaker_map, h]
    decide

/-- C5: the job state used for terminal matching is the first non-empty
value among the fields `status`, `job_state`, `state` in that priority
order, `"unknown"` when none is present; a payload carrying only
`job_state = "Completed"` is recognized as terminal success. -/
theorem claim_C5 :
    (∀ sr : StatusPayload, extract_status sr = spec_status_first_nonempty sr) ∧
    extract_status ⟨none, some "Completed", none, none⟩ = "Completed" ∧
    isSuccessStatus "Completed" = true ∧
    (wait_for_completion (fun _ => ⟨none, some "Completed", none, none⟩)
      (.ok ⟨[]⟩) 10 3600).result.status = some "completed" ∧
    (wait_for_completion (fun _ => ⟨none, some "Completed", none, none⟩)
      (.ok ⟨[]⟩) 10 3600).downloads = 1 :=
  ⟨extract_status_eq_spec, by decide, by decide, by decide, by decide⟩

/-! ## Sample environments (used to instantiate hypotheses concretely) -/

/-- A group environment whose job-creation request fails. -/
def envFailInit : GroupEnv :=
  ⟨.error "Job creation failed", .ok (), .ok (),
    fun _ => ⟨none, none, none, none⟩, .ok ⟨[]⟩, fun _ => .exc "unreachable"⟩

/-- A group environment for a fully successful two-file job: creation,
upload and start succeed, the first poll reports `Completed`, the
download-files call yields positional URLs `0.json`/`1.json`, and every
artifact GET returns a decodable transcript. -/
def envHappy : GroupEnv :=
  ⟨.ok "job-1", .ok (), .ok (),
    fun _ => ⟨some "Completed", none, none, none⟩,
    .ok ⟨[("0.json", .str "u0"), ("1.json", .str "u1")]⟩,
    fun _ => .resp ⟨200, .ok (.obj (some "hi") (some "en-IN") none)⟩⟩

/-- C4: if a group's job-creation request fails with reason `e`, every file
in the group receives an error row whose `Error` field is `e`, and no
upload, start, status-poll, download-files or artifact-fetch call is made
for the group. -/
theorem claim_C4 (env : GroupEnv) (batch_files : List String) (e : String)
    (h : env.initiate = .error e) :
    process_batch env batch_files =
      ⟨batch_files.map (fun f => error_row f e), 0, 0, 0, 0, 0⟩ ∧
    ∀ r ∈ (process_batch env batch_files).rows, r.error = e := by
  have hrun : process_batch env batch_files =
      ⟨batch_files.map (fun f => error_row f e), 0, 0, 0, 0, 0⟩ := by
    simp [process_batch, submit_batch, h]
  refine ⟨hrun, ?_⟩
  rw [hrun]
  intro r hr
  simp only [List.mem_map] at hr
  obtain ⟨f, _, rfl⟩ := hr
  rfl

/-- Witness for C4 at a concrete failing environment. -/
theorem claim_C4_witness :
    process_batch envFailInit ["dir/a.wav"] =
      ⟨["dir/a.wav"].map (fun f => error_row f "Job creation failed"), 0, 0, 0, 0, 0⟩ ∧
    ∀ r ∈ (process_batch envFailInit ["dir/a.wav"]).rows, r.error = "Job creation failed" :=
  claim_C4 envFailInit ["dir/a.wav"] "Job creation failed" rfl

/-- Every row built from a fetch outcome carries the file's own path. -/
lemma artifact_row_file_path (o : FetchOutcome) (f : String) :
    (artifact_row o f).file_path = f := by
  rcases o with msg | r
  · rfl
  · rcases r with ⟨c, b⟩
    by_cases h : c = 200
    · rcases b with m | d <;> simp [artifact_row, error_row, h]
    · simp [artifact_row, error_row, h]

/-- Every per-file row carries the file's own path. -/
lemma file_result_file_path (fetch : String → FetchOutcome)
    (dls : List (String × UrlInfo)) (idx : Nat) (f : String) :
    (file_result fetch dls idx f).file_path = f := by
  unfold file_result
  cases truthy (json_url_at dls idx)
  · rfl
  · exact artifact_row_file_path _ f

/-- One group run yields exactly one row per input file, in submission
order: projecting the rows to their `File Path` column gives back the input
file list, whatever the environment does. -/
lemma process_batch_paths (env : GroupEnv) (batch_files : List String) :
    (process_batch env batch_files).rows.map (fun r => r.file_path) = batch_files := by
  unfold process_batch
  rcases hsub : (submit_batch env).result with e | jid
  · simp only [hsub, List.map_map]
    exact List.map_id'' (fun f => rfl) batch_files
  · by_cases hw : (wait_for_completion env.statusAt env.download 10 3600).result.status
        = some "completed"
    · simp only [hsub, hw, if_true, List.map_map]
      have : ((fun r => r.file_path) ∘
          fun p : Nat × String => file_result env.fetch
            (((wait_for_completion env.statusAt env.download 10 3600).result.results.getD
              ⟨[]⟩).download_urls) p.1 p.2) = fun p : Nat × String => p.2 := by
        funext p
        exact file_result_file_path _ _ _ _
      rw [this, List.enum_map_snd]
    · simp only [hsub, hw, if_false, List.map_map]
      exact List.map_id'' (fun f => rfl) batch_files

/-- Chunk-flattening helper: mapping `i ↦ l[i:i+n]` over `0, n, 2n, ...`
(`k` terms) and flattening recovers `l`, provided `k` chunks cover it. -/
lemma flatten_slices (n : Nat) :
    ∀ (k : Nat) (l : List String), l.length ≤ k * n →
      ((List.range' 0 k n).map (fun i => (l.drop i).take n)).flatten = l := by
  intro k
  induction k with
  | zero =>
    intro l h
    have : l = [] := List.eq_nil_of_length_eq_zero (by omega)
    simp [this]
  | succ k ih =>
    intro l h
    rw [List.range'_succ]
    simp only [List.map_cons, List.flatten_cons, List.drop_zero, Nat.zero_add]
    have hshift : List.range' n k n = (List.range' 0 k n).map (fun i => n + i) := by
      have h := List.map_add_range' n 0 k n
      rw [Nat.add_zero] at h
      exact h.symm
    rw [hshift, List.map_map]
    have hfun : ((fun i => (l.drop i).take n) ∘ fun i => n + i) =
        fun i => ((l.drop n).drop i).take n := by
      funext i
      simp [List.drop_drop]
    rw [hfun]
    have hlen : (l.drop n).length ≤ k * n := by
      have hsm : (k + 1) * n = k * n + n := by ring
      simp only [List.length_drop]
      omega
    rw [ih (l.drop n) hlen]
    exact List.take_append_drop n l

/-- With a positive batch size, the ceiling-div chunk count covers the whole
list: `L ≤ ⌈L/n⌉ * n`. -/
lemma length_le_budget_mul (a n : Nat) (hn : 0 < n) : a ≤ (a + n - 1) / n * n := by
  have h1 := Nat.div_add_mod (a + n - 1) n
  have h2 := Nat.mod_lt (a + n - 1) hn
  have h3 : a + (a + n - 1) % n ≤ n * ((a + n - 1) / n) + (a + n - 1) % n := by
    rw [h1]
    omega
  have h4 : a ≤ n * ((a + n - 1) / n) := Nat.le_of_add_le_add_right h3
  rw [Nat.mul_comm]
  exact h4

/-- Splitting into batches loses and reorders nothing: the chunks
concatenate back to the input list. -/
lemma chunks_flatten (l : List String) (n : Nat) (hn : 0 < n) :
    (chunks l n).flatten = l := by
  unfold chunks
  exact flatten_slices n _ l (length_le_budget_mul l.length n hn)

/-- C1: for every environment (hence every combination of stage failures)
the aggregated output has exactly one row per input file: projecting the
output rows to their `File Path` column gives back the input file list, and
in particular the number of rows equals the number of input files. -/
theorem claim_C1 (env : Nat → GroupEnv) (audio_files : List String) (batch_size : Nat)
    (hbs : 0 < batch_size) :
    (transcribe_folder_batch env audio_files batch_size).map (fun r => r.file_path)
      = audio_files ∧
    (transcribe_folder_batch env audio_files batch_size).length = audio_files.length := by
  have hmap : (transcribe_folder_batch env audio_files batch_size).map (fun r => r.file_path)
      = audio_files := by
    unfold transcribe_folder_batch
    rw [List.map_flatten, List.map_map]
    have hfun : (List.map (fun r => r.file_path) ∘
        fun p : Nat × List String => (process_batch (env p.1) p.2).rows) =
        fun p : Nat × List String => p.2 := by
      funext p
      exact process_batch_paths (env p.1) p.2
    rw [hfun, List.enum_map_snd]
    exact chunks_flatten audio_files batch_size hbs
  refine ⟨hmap, ?_⟩
  have := congrArg List.length hmap
  simpa using this

/-- Witness for C1 at a concrete file set and batch size. -/
theorem claim_C1_witness :
    (transcribe_folder_batch (fun _ => envFailInit) ["a.wav", "b.wav", "c.wav"] 2).map
      (fun r => r.file_path) = ["a.wav", "b.wav", "c.wav"] ∧
    (transcribe_folder_batch (fun _ => envFailInit) ["a.wav", "b.wav", "c.wav"] 2).length = 3 :=
  claim_C1 (fun _ => envFailInit) ["a.wav", "b.wav", "c.wav"] 2 (by decide)

/-- A matched failure synonym precludes a matched success synonym: the two
vocabularies are disjoint. -/
lemma isSuccessStatus_eq_false_of_isFailureStatus (s : String)
    (h : isFailureStatus s = true) : isSuccessStatus s = false := by
  have hm : pyLower s = "failed" ∨ pyLower s = "error" ∨ pyLower s = "failure" := by
    simpa [isFailureStatus, failure_statuses] using h
  simp only [isSuccessStatus, success_statuses]
  rcases hm with hv | hv | hv <;> rw [hv] <;> decide

/-- A non-terminal poll makes the loop continue into the next iteration. -/
lemma waitLoop_nonterminal_step (st : Nat → StatusPayload) (dl : Except String DLResults)
    (fuel polls : Nat) (hs : isSuccessStatus (extract_status (st polls)) = false)
    (hf : isFailureStatus (extract_status (st polls)) = false) :
    waitLoop st dl (fuel + 1) polls = waitLoop st dl fuel (polls + 1) := by
  simp [waitLoop, hs, hf]

/-- Skipping over `k` consecutive non-terminal polls. -/
lemma waitLoop_skip (st : Nat → StatusPayload) (dl : Except String DLResults) :
    ∀ (k fuel polls : Nat),
      (∀ j, j < k → isSuccessStatus (extract_status (st (polls + j))) = false ∧
        isFailureStatus (extract_status (st (polls + j))) = false) →
      waitLoop st dl (k + fuel) polls = waitLoop st dl fuel (polls + k) := by
  intro k
  induction k with
  | zero => intro fuel polls _; rw [Nat.zero_add, Nat.add_zero]
  | succ k ih =>
    intro fuel polls h
    have h0 := h 0 (by omega)
    rw [show k + 1 + fuel = (k + fuel) + 1 from by omega]
    rw [waitLoop_nonterminal_step st dl (k + fuel) polls
      (by simpa using h0.1) (by simpa using h0.2)]
    rw [ih fuel (polls + 1) (fun j hj => by
      have hh := h (j + 1) (by omega)
      rw [show polls + (j + 1) = polls + 1 + j from by omega] at hh
      exact hh)]
    rw [show polls + 1 + k = polls + (k + 1) from by omega]

/-- If no poll ever observes a terminal status, every iteration continues
and the loop returns the timeout dict after exhausting its budget, with no
download call. -/
lemma waitLoop_timeout (st : Nat → StatusPayload) (dl : Except String DLResults)
    (hnt : ∀ j, isSuccessStatus (extract_status (st j)) = false ∧
      isFailureStatus (extract_status (st j)) = false) :
    ∀ fuel polls, waitLoop st dl fuel polls =
      ⟨⟨some "timeout", some "Job timed out", none⟩, polls + fuel, 0⟩ := by
  intro fuel
  induction fuel with
  | zero => intro polls; rfl
  | succ fuel ih =>
    intro polls
    rw [waitLoop_nonterminal_step st dl fuel polls (hnt polls).1 (hnt polls).2, ih (polls + 1)]
    rw [show polls + 1 + fuel = polls + (fuel + 1) from by omega]

/-- A poll that is still within the wait budget is within the loop's
iteration count: `k * p < m → k < ⌈m / p⌉`. -/
lemma lt_pollBudget_of_mul_lt (p m k : Nat) (hp : 0 < p) (h : k * p < m) :
    k < pollBudget p m := by
  have hk1 : k + 1 ≤ (m + p - 1) / p := by
    rw [Nat.le_div_iff_mul_le hp]
    have hsm : (k + 1) * p = k * p + p := by ring
    omega
  exact hk1

/-- C2: a first terminal poll whose lowercased status is a success synonym
makes `wait_for_completion` proceed to the result-download call; a failure
synonym makes it return the raw status payload without any download call;
and if no poll is ever terminal the loop polls until the budget is
exhausted and returns the timeout outcome. -/
theorem claim_C2 (statusAt : Nat → StatusPayload) (download : Except String DLResults)
    (p m : Nat) (hp : 0 < p) :
    (∀ k : Nat, k * p < m →
      (∀ j, j < k → isSuccessStatus (extract_status (statusAt j)) = false ∧
        isFailureStatus (extract_status (statusAt j)) = false) →
      (isSuccessStatus (extract_status (statusAt k)) = true →
        (wait_for_completion statusAt download p m).downloads = 1 ∧
        (wait_for_completion statusAt download p m).polls = k + 1) ∧
      (isFailureStatus (extract_status (statusAt k)) = true →
        (wait_for_completion statusAt download p m).downloads = 0 ∧
        (wait_for_completion statusAt download p m).polls = k + 1 ∧
        (wait_for_completion statusAt download p m).result =
          ⟨(statusAt k).status, (statusAt k).error, none⟩)) ∧
    ((∀ j, isSuccessStatus (extract_status (statusAt j)) = false ∧
        isFailureStatus (extract_status (statusAt j)) = false) →
      (wait_for_completion statusAt download p m).result =
        ⟨some "timeout", some "Job timed out", none⟩ ∧
      (wait_for_completion statusAt download p m).downloads = 0) := by
  constructor
  · intro k hk hnon
    have hbud : k < pollBudget p m := lt_pollBudget_of_mul_lt p m k hp hk
    obtain ⟨d, hd⟩ : ∃ d, pollBudget p m = k + (d + 1) := ⟨pollBudget p m - k - 1, by omega⟩
    have hrun : wait_for_completion statusAt download p m =
        waitLoop statusAt download (d + 1) k := by
      unfold wait_for_completion
      rw [hd, waitLoop_skip statusAt download k (d + 1) 0 (by simpa using hnon)]
      rw [Nat.zero_add]
    constructor
    · intro hs
      rw [hrun]
      rcases download with e | res <;> simp [waitLoop, hs]
    · intro hf
      have hs := isSuccessStatus_eq_false_of_isFailureStatus _ hf
      rw [hrun]
      simp [waitLoop, hs, hf]
  · intro hnt
    unfold wait_for_completion
    rw [waitLoop_timeout statusAt download hnt (pollBudget p m) 0]
    exact ⟨rfl, rfl⟩

/-- Witness for C2: with the first poll already a failure synonym, the loop
stops with no download call and hands back the raw payload. -/
theorem claim_C2_witness :
    (wait_for_completion (fun _ => ⟨some "Failed", none, none, some "boom"⟩)
      (.ok ⟨[]⟩) 10 3600).downloads = 0 ∧
    (wait_for_completion (fun _ => ⟨some "Failed", none, none, some "boom"⟩)
      (.ok ⟨[]⟩) 10 3600).polls = 0 + 1 ∧
    (wait_for_completion (fun _ => ⟨some "Failed", none, none, some "boom"⟩)
      (.ok ⟨[]⟩) 10 3600).result = ⟨some "Failed", some "boom", none⟩ :=
  ((claim_C2 (fun _ => ⟨some "Failed", none, none, some "boom"⟩) (.ok ⟨[]⟩) 10 3600
    (by decide)).1 0 (by decide) (fun j hj => absurd hj (by omega))).2 (by decide)

/-- C3: with positive poll interval `p` and wait budget `m`, if no poll
ever observes a terminal status then `wait_for_completion` performs at most
`⌈m / p⌉ = (m + p - 1) / p` status polls, makes no download call, and
returns the timeout outcome. -/
theorem claim_C3 (statusAt : Nat → StatusPayload) (download : Except String DLResults)
    (p m : Nat) (_hp : 0 < p)
    (hnt : ∀ j, isSuccessStatus (extract_status (statusAt j)) = false ∧
      isFailureStatus (extract_status (statusAt j)) = false) :
    (wait_for_completion statusAt download p m).polls ≤ (m + p - 1) / p ∧
    (wait_for_completion statusAt download p m).result =
      ⟨some "timeout", some "Job timed out", none⟩ ∧
    (wait_for_completion statusAt download p m).downloads = 0 := by
  unfold wait_for_completion
  rw [waitLoop_timeout statusAt download hnt (pollBudget p m) 0]
  refine ⟨?_, rfl, rfl⟩
  simp [pollBudget]

/-- Witness for C3 at the spec's scenario: interval 10 and max wait 25 give
at most `(25 + 10 - 1) / 10 = 3` polls before the timeout outcome. -/
theorem claim_C3_witness :
    (wait_for_completion (fun _ => ⟨some "Processing", none, none, none⟩)
      (.ok ⟨[]⟩) 10 25).polls ≤ (25 + 10 - 1) / 10 ∧
    (wait_for_completion (fun _ => ⟨some "Processing", none, none, none⟩)
      (.ok ⟨[]⟩) 10 25).result = ⟨some "timeout", some "Job timed out", none⟩ ∧
    (wait_for_completion (fun _ => ⟨some "Processing", none, none, none⟩)
      (.ok ⟨[]⟩) 10 25).downloads = 0 :=
  claim_C3 (fun _ => ⟨some "Processing", none, none, none⟩) (.ok ⟨[]⟩) 10 25
    (by decide) (fun _ => ⟨rfl, rfl⟩)

/-- The C6 scenario's per-group environments: group 0 succeeds fully, every
later group fails at job creation. -/
def envScenario3 : Nat → GroupEnv :=
  fun g => if g = 0 then envHappy else envFailInit

/-- C6: the coordinator partitions the input into consecutive groups of at
most `batch_size` that concatenate back to the input (so the aggregated
output is the in-order concatenation of the groups' per-file rows); in the
3-file, `batch_size = 2` scenario with group 1 fully successful and group
2's job creation failing, the output has 3 rows in original file order, the
first two marked `Success` and the last carrying the creation-failure
reason. -/
theorem claim_C6 :
    (∀ (l : List String) (n : Nat), 0 < n →
      (chunks l n).flatten = l ∧ ∀ c ∈ chunks l n, c.length ≤ n) ∧
    chunks ["a.wav", "b.wav", "c.wav"] 2 = [["a.wav", "b.wav"], ["c.wav"]] ∧
    (transcribe_folder_batch envScenario3 ["a.wav", "b.wav", "c.wav"] 2).map
      (fun r => r.error) = ["Success", "Success", "Job creation failed"] ∧
    (transcribe_folder_batch envScenario3 ["a.wav", "b.wav", "c.wav"] 2).map
      (fun r => r.file_path) = ["a.wav", "b.wav", "c.wav"] := by
  refine ⟨?_, by decide, by decide, by decide⟩
  intro l n hn
  refine ⟨chunks_flatten l n hn, ?_⟩
  intro c hc
  unfold chunks at hc
  simp only [List.mem_map] at hc
  obtain ⟨i, _, rfl⟩ := hc
  simp only [List.length_take]
  omega

/-- Witness for C6's quantified partition property at a concrete list. -/
theorem claim_C6_witness :
    (chunks ["x.wav", "y.wav", "z.wav"] 2).flatten = ["x.wav", "y.wav", "z.wav"] ∧
    ∀ c ∈ chunks ["x.wav", "y.wav", "z.wav"] 2, c.length ≤ 2 :=
  claim_C6.1 ["x.wav", "y.wav", "z.wav"] 2 (by decide)

/-- In the completed branch, the group's rows are exactly the per-file
results of the positional lookup, one per input file in submission order. -/
lemma process_batch_completed_rows (env : GroupEnv) (fs : List String) (jid : String)
    (hsub : (submit_batch env).result = Except.ok jid)
    (hw : (wait_for_completion env.statusAt env.download 10 3600).result.status
      = some "completed") :
    (process_batch env fs).rows = fs.enum.map (fun p => file_result env.fetch
      (((wait_for_completion env.statusAt env.download 10 3600).result.results.getD
        ⟨[]⟩).download_urls) p.1 p.2) := by
  unfold process_batch
  simp only [hsub, hw, if_true]

/-- C7: within a completed job, each file's row is computed independently
from its own index and fetch outcome; a download failure (exception or
non-200 status) or a decode failure for one file yields an error row for
that file only, and the group still produces one row per file (no
escalation to a job-level failure). -/
theorem claim_C7 :
    (∀ (env : GroupEnv) (fs : List String) (jid : String),
      (submit_batch env).result = Except.ok jid →
      (wait_for_completion env.statusAt env.download 10 3600).result.status
        = some "completed" →
      (process_batch env fs).rows = fs.enum.map (fun p => file_result env.fetch
        (((wait_for_completion env.statusAt env.download 10 3600).result.results.getD
          ⟨[]⟩).download_urls) p.1 p.2) ∧
      (process_batch env fs).rows.length = fs.length) ∧
    (∀ (fetch fetch2 : String → FetchOutcome) (dls : List (String × UrlInfo))
        (i : Nat) (f : String),
      (∀ u, truthy (json_url_at dls i) = some u → fetch u = fetch2 u) →
      file_result fetch dls i f = file_result fetch2 dls i f) ∧
    (∀ (fetch : String → FetchOutcome) (dls : List (String × UrlInfo))
        (i : Nat) (f u e : String),
      truthy (json_url_at dls i) = some u → fetch u = .resp ⟨200, .err e⟩ →
      file_result fetch dls i f = error_row f ("Download error: " ++ e)) ∧
    (∀ (fetch : String → FetchOutcome) (dls : List (String × UrlInfo))
        (i : Nat) (f u e : String),
      truthy (json_url_at dls i) = some u → fetch u = .exc e →
      file_result fetch dls i f = error_row f ("Download error: " ++ e)) ∧
    (∀ (fetch : String → FetchOutcome) (dls : List (String × UrlInfo))
        (i : Nat) (f u : String) (c : Nat) (b : DecodeResult),
      truthy (json_url_at dls i) = some u → fetch u = .resp ⟨c, b⟩ → c ≠ 200 →
      file_result fetch dls i f = error_row f ("Failed to download result: " ++ toString c)) := by
  refine ⟨?_, ?_, ?_, ?_, ?_⟩
  · intro env fs jid hsub hw
    have hrows := process_batch_completed_rows env fs jid hsub hw
    refine ⟨hrows, ?_⟩
    rw [hrows]
    simp
  · intro fetch fetch2 dls i f hag
    unfold file_result
    cases h : truthy (json_url_at dls i) with
    | none => rfl
    | some u => simp only [hag u h]
  · intro fetch dls i f u e h hf
    unfold file_result
    rw [h]
    simp only [hf]
    rfl
  · intro fetch dls i f u e h hf
    unfold file_result
    rw [h]
    simp only [hf]
    rfl
  · intro fetch dls i f u c b h hf hc
    unfold file_result
    rw [h]
    simp only [hf]
    simp [artifact_row, hc]

/-- Witness for C7: a decode failure at the only file of a group produces
its `"Download error: ..."` row. -/
theorem claim_C7_witness :
    file_result (fun _ => .resp ⟨200, .err "bad json"⟩) [("0.json", .str "u0")] 0 "a.wav" =
      error_row "a.wav" ("Download error: " ++ "bad json") :=
  claim_C7.2.2.1 (fun _ => .resp ⟨200, .err "bad json"⟩) [("0.json", .str "u0")]
    0 "a.wav" "u0" "bad json" (by decide) rfl

/-- C8: a file of a completed job with no usable download URL gets the
`"No download URL found"` row with empty transcript and empty diarized
transcript, while the group's rows remain the independent per-file results
(the job's other files are processed normally). -/
theorem claim_C8 :
    (∀ (fetch : String → FetchOutcome) (dls : List (String × UrlInfo))
        (i : Nat) (f : String),
      truthy (json_url_at dls i) = none →
      file_result fetch dls i f = error_row f "No download URL found" ∧
      (file_result fetch dls i f).error = "No download URL found" ∧
      (file_result fetch dls i f).transcript = "" ∧
      (file_result fetch dls i f).diarized_transcript = "") ∧
    (∀ (env : GroupEnv) (fs : List String) (jid : String),
      (submit_batch env).result = Except.ok jid →
      (wait_for_completion env.statusAt env.download 10 3600).result.status
        = some "completed" →
      (process_batch env fs).rows = fs.enum.map (fun p => file_result env.fetch
        (((wait_for_completion env.statusAt env.download 10 3600).result.results.getD
          ⟨[]⟩).download_urls) p.1 p.2)) := by
  constructor
  · intro fetch dls i f h
    have h1 : file_result fetch dls i f = error_row f "No download URL found" := by
      unfold file_result
      rw [h]
    exact ⟨h1, by rw [h1]; rfl, by rw [h1]; rfl, by rw [h1]; rfl⟩
  · exact fun env fs jid hsub hw => process_batch_completed_rows env fs jid hsub hw

/-- Witness for C8: an empty download-URL map yields the no-URL row. -/
theorem claim_C8_witness :
    file_result (fun _ => .exc "unused") [] 0 "a.wav" =
      error_row "a.wav" "No download URL found" ∧
    (file_result (fun _ => .exc "unused") [] 0 "a.wav").error = "No download URL found" ∧
    (file_result (fun _ => .exc "unused") [] 0 "a.wav").transcript = "" ∧
    (file_result (fun _ => .exc "unused") [] 0 "a.wav").diarized_transcript = "" :=
  claim_C8.1 (fun _ => .exc "unused") [] 0 "a.wav" rfl

/-- The content columns of a fetched row do not depend on the file name. -/
lemma artifact_row_content (o : FetchOutcome) (f g : String) :
    (artifact_row o f).detected_language = (artifact_row o g).detected_language ∧
    (artifact_row o f).transcript = (artifact_row o g).transcript ∧
    (artifact_row o f).diarized_transcript = (artifact_row o g).diarized_transcript ∧
    (artifact_row o f).error = (artifact_row o g).error := by
  rcases o with e | r
  · exact ⟨rfl, rfl, rfl, rfl⟩
  · rcases r with ⟨c, b⟩
    by_cases h : c = 200
    · subst h
      rcases b with m | d
      · exact ⟨rfl, rfl, rfl, rfl⟩
      · exact ⟨rfl, rfl, rfl, rfl⟩
    · simp [artifact_row, h, error_row]

/-- C10: artifacts are matched to files positionally: the content columns
of the row at index `i` depend only on `i` (not on the file's name); a
missing entry under the key `"<i>.json"` is exactly the
`"No download URL found"` outcome; and a present, non-empty entry under
that key (bare string or `file_url` dict) makes the row be built from
fetching precisely that stored URL. -/
theorem claim_C10 :
    (∀ (fetch : String → FetchOutcome) (dls : List (String × UrlInfo))
        (i : Nat) (f g : String),
      (file_result fetch dls i f).detected_language
        = (file_result fetch dls i g).detected_language ∧
      (file_result fetch dls i f).transcript = (file_result fetch dls i g).transcript ∧
      (file_result fetch dls i f).diarized_transcript
        = (file_result fetch dls i g).diarized_transcript ∧
      (file_result fetch dls i f).error = (file_result fetch dls i g).error) ∧
    (∀ (fetch : String → FetchOutcome) (dls : List (String × UrlInfo))
        (i : Nat) (f : String),
      dls.lookup (toString i ++ ".json") = none →
      file_result fetch dls i f = error_row f "No download URL found") ∧
    (∀ (fetch : String → FetchOutcome) (dls : List (String × UrlInfo))
        (i : Nat) (f u : String),
      dls.lookup (toString i ++ ".json") = some (.str u) → u ≠ "" →
      file_result fetch dls i f = artifact_row (fetch u) f) ∧
    (∀ (fetch : String → FetchOutcome) (dls : List (String × UrlInfo))
        (i : Nat) (f u : String),
      dls.lookup (toString i ++ ".json") = some (.dict (some u)) → u ≠ "" →
      file_result fetch dls i f = artifact_row (fetch u) f) := by
  refine ⟨?_, ?_, ?_, ?_⟩
  · intro fetch dls i f g
    unfold file_result
    cases truthy (json_url_at dls i) with
    | none => exact ⟨rfl, rfl, rfl, rfl⟩
    | some u => exact artifact_row_content (fetch u) f g
  · intro fetch dls i f h
    simp [file_result, json_url_at, truthy, h]
  · intro fetch dls i f u h hu
    simp [file_result, json_url_at, truthy, h, hu]
  · intro fetch dls i f u h hu
    simp [file_result, json_url_at, truthy, h, hu]

/-- Witness for C10: a bare-string entry under `"1.json"` is fetched for the
file at index 1. -/
theorem claim_C10_witness :
    file_result (fun _ => .resp ⟨200, .ok .nonDict⟩) [("1.json", UrlInfo.str "u9")] 1 "b.wav" =
      artifact_row (.resp ⟨200, .ok .nonDict⟩) "b.wav" :=
  claim_C10.2.2.1 (fun _ => .resp ⟨200, .ok .nonDict⟩) [("1.json", UrlInfo.str "u9")]
    1 "b.wav" "u9" rfl (by decide)

end SarvamBatch
